import Mathlib

/-!
Shallow embedding of `src/lib.rs` of the `neuro_import` repository: a
binding that loads an Intan RHS neurophysiology file through an external
decoder (`intan_importer::load`) and converts the decoded raw sample codes
into calibrated physical quantities.

Modelling conventions:
* Rust `u16` sample codes are `Nat` (all codes produced by the decoder are
  below 2 ^ 16; where wrap-around of a 16-bit word could matter it is made
  explicit with `% 65536`).
* 32-bit floats are modelled by `ℚ`: every float literal in the source
  (`0.195`, `-0.01923`, `312.5e-6`) is carried exactly, the integer operands
  of each formula (differences of 16-bit codes, products of an 8-bit
  magnitude and a sign) are exactly representable in `f32`, and the spec's
  reference formulas are the same real-valued expressions.
* `ndarray::Array2<u16>` (channels x samples) is a shape pair plus an entry
  function.
* The external decoder and the filesystem are out of scope per the spec;
  `load_rhs_file` receives the existence check's outcome and the decoder's
  result as parameters.  A Rust `panic` (the `unwrap` on `data`) is modelled
  as a distinguished error value.
* Header fields that the conversion layer never reads (channel name strings,
  port information, the projected frequency/notes/stim-parameter maps) are
  omitted from the embedding; no claim mentions them.
-/

/-- Channel descriptor from the external decoder's header.  Only the fields
read by the conversion layer are modelled; `native_order` is the channel's
position in the raw block and, for digital channels, the bit position inside
the packed 16-bit digital word. -/
structure ChannelDescriptor where
  native_order : Nat
deriving Repr, DecidableEq

/-- The header fields of `intan_importer::RhsHeader` that `load_rhs_file`'s
data-conversion path reads. -/
structure RhsHeader where
  sample_rate : ℚ
  dc_amplifier_data_saved : Bool
  board_dig_in_channels : List ChannelDescriptor
  board_dig_out_channels : List ChannelDescriptor
deriving Repr

/-- A 2-dimensional array of 16-bit codes, channels x samples
(`ndarray::Array2<u16>`): `num_channels = shape()[0]`,
`num_samples = shape()[1]`, `entry i j = arr[[i, j]]`. -/
structure Array2 where
  num_channels : Nat
  num_samples : Nat
  entry : Nat → Nat → Nat

/-- The raw sample block `intan_importer::RhsData`: per-datatype optional raw
arrays plus the timestamp sequence. -/
structure RhsData where
  timestamps : List Int
  amplifier_data : Option Array2
  dc_amplifier_data : Option Array2
  stim_data : Option Array2
  board_adc_data : Option Array2
  board_dac_data : Option Array2
  board_dig_in_raw : Option (List Nat)
  board_dig_out_raw : Option (List Nat)

/-- The decoder's output `RhsFile { header, data_present, data }`. -/
structure RhsFile where
  header : RhsHeader
  data_present : Bool
  data : Option RhsData

/-- The per-sample amplifier scaling from `convert_amplifier_data`'s loop
body: `0.195 * (sample as i32 - 32768) as f32`, microvolts. -/
def amplifier_sample_scale (sample : Nat) : ℚ :=
  (0.195 : ℚ) * ((((sample : ℤ) - 32768) : ℤ) : ℚ)

/-- The per-sample DC-amplifier scaling from `convert_dc_amplifier_data`'s
loop body: `-0.01923 * (sample as i32 - 512) as f32`, volts. -/
def dc_amplifier_sample_scale (sample : Nat) : ℚ :=
  (-0.01923 : ℚ) * ((((sample : ℤ) - 512) : ℤ) : ℚ)

/-- The per-sample board ADC/DAC scaling from `convert_board_adc_data` and
`convert_board_dac_data`: `312.5e-6 * (sample as i32 - 32768) as f32`,
volts. -/
def board_adc_sample_scale (sample : Nat) : ℚ :=
  (312.5e-6 : ℚ) * ((((sample : ℤ) - 32768) : ℤ) : ℚ)

/-- Compliance-limit flag of a stimulation word: `(sample & 0x8000) != 0`. -/
def stim_compliance_limit (sample : Nat) : Bool :=
  (sample &&& 0x8000) != 0

/-- Charge-recovery flag of a stimulation word: `(sample & 0x4000) != 0`. -/
def stim_charge_recovery (sample : Nat) : Bool :=
  (sample &&& 0x4000) != 0

/-- Amp-settle flag of a stimulation word: `(sample & 0x2000) != 0`. -/
def stim_amp_settle (sample : Nat) : Bool :=
  (sample &&& 0x2000) != 0

/-- Signed stimulation current from a stimulation word, the loop body of
`convert_stim_data`: polarity from bit 8, magnitude from bits 0-7,
`(current_amp * polarity) as f32`. -/
def stim_current (sample : Nat) : ℚ :=
  let polarity : ℤ := if (sample &&& 0x0100) != 0 then -1 else 1
  let current_amp : ℤ := ((sample &&& 0x00FF : Nat) : ℤ)
  ((current_amp * polarity : ℤ) : ℚ)

/-- Rust `convert_amplifier_data`: scale every entry of the raw amplifier array to
microvolts; `Vec::new()` when the raw array is absent. -/
def convert_amplifier_data (data : RhsData) : List (List ℚ) :=
  match data.amplifier_data with
  | some amp_data =>
      (List.range amp_data.num_channels).map fun i =>
        (List.range amp_data.num_samples).map fun j =>
          amplifier_sample_scale (amp_data.entry i j)
  | none => []

/-- Rust `convert_dc_amplifier_data`: scale every entry of the raw DC-amplifier
array to volts; `Vec::new()` when the raw array is absent. -/
def convert_dc_amplifier_data (data : RhsData) : List (List ℚ) :=
  match data.dc_amplifier_data with
  | some dc_amp_data =>
      (List.range dc_amp_data.num_channels).map fun i =>
        (List.range dc_amp_data.num_samples).map fun j =>
          dc_amplifier_sample_scale (dc_amp_data.entry i j)
  | none => []

/-- Result record of `convert_stim_data`. -/
structure StimDataConversion where
  stim_data : List (List ℚ)
  compliance_limit_data : List (List Bool)
  charge_recovery_data : List (List Bool)
  amp_settle_data : List (List Bool)

/-- Rust `convert_stim_data`: one pass over the raw stimulation array producing
the signed current plane and the three flag planes; all four empty when the
raw array is absent. -/
def convert_stim_data (data : RhsData) : StimDataConversion :=
  match data.stim_data with
  | some stim_data_arr =>
      { stim_data :=
          (List.range stim_data_arr.num_channels).map fun i =>
            (List.range stim_data_arr.num_samples).map fun j =>
              stim_current (stim_data_arr.entry i j)
        compliance_limit_data :=
          (List.range stim_data_arr.num_channels).map fun i =>
            (List.range stim_data_arr.num_samples).map fun j =>
              stim_compliance_limit (stim_data_arr.entry i j)
        charge_recovery_data :=
          (List.range stim_data_arr.num_channels).map fun i =>
            (List.range stim_data_arr.num_samples).map fun j =>
              stim_charge_recovery (stim_data_arr.entry i j)
        amp_settle_data :=
          (List.range stim_data_arr.num_channels).map fun i =>
            (List.range stim_data_arr.num_samples).map fun j =>
              stim_amp_settle (stim_data_arr.entry i j) }
  | none =>
      { stim_data := []
        compliance_limit_data := []
        charge_recovery_data := []
        amp_settle_data := [] }

/-- Rust `convert_board_adc_data`: scale every entry to volts, with an explicit
early `Vec::new()` return when the channel count is zero. -/
def convert_board_adc_data (data : RhsData) : List (List ℚ) :=
  match data.board_adc_data with
  | some adc_data =>
      if adc_data.num_channels = 0 then []
      else
        (List.range adc_data.num_channels).map fun i =>
          (List.range adc_data.num_samples).map fun j =>
            board_adc_sample_scale (adc_data.entry i j)
  | none => []

/-- Rust `convert_board_dac_data`: identical scaling to the ADC path. -/
def convert_board_dac_data (data : RhsData) : List (List ℚ) :=
  match data.board_dac_data with
  | some dac_data =>
      if dac_data.num_channels = 0 then []
      else
        (List.range dac_data.num_channels).map fun i =>
          (List.range dac_data.num_samples).map fun j =>
            board_adc_sample_scale (dac_data.entry i j)
  | none => []

/-- Rust `convert_board_dig_in_raw`: demultiplex one packed 16-bit word per sample
into per-channel boolean sequences, testing `sample & (1 << native_order)`.
The iteration `for i in 0..num_channels` reading
`board_dig_in_channels[i].native_order` is rendered as a map over the channel
list. -/
def convert_board_dig_in_raw (data : RhsData) (header : RhsHeader) :
    List (List Bool) :=
  let num_channels := header.board_dig_in_channels.length
  if num_channels = 0 then []
  else
    match data.board_dig_in_raw with
    | some dig_in_raw =>
        let num_samples := dig_in_raw.length
        if num_samples = 0 then []
        else
          header.board_dig_in_channels.map fun channel =>
            dig_in_raw.map fun sample =>
              (sample &&& (1 <<< channel.native_order)) != 0
    | none => []

/-- Rust `convert_board_dig_out_raw`: same demultiplexing for the digital-out
port. -/
def convert_board_dig_out_raw (data : RhsData) (header : RhsHeader) :
    List (List Bool) :=
  let num_channels := header.board_dig_out_channels.length
  if num_channels = 0 then []
  else
    match data.board_dig_out_raw with
    | some dig_out_raw =>
        let num_samples := dig_out_raw.length
        if num_samples = 0 then []
        else
          header.board_dig_out_channels.map fun channel =>
            dig_out_raw.map fun sample =>
              (sample &&& (1 <<< channel.native_order)) != 0
    | none => []

/-- The sample-data part of the `RHSResult` pyclass (header-projection maps,
which no conversion claim touches, are omitted). -/
structure RHSResult where
  data_present : Bool
  t : List ℚ
  amplifier_data : Option (List (List ℚ))
  dc_amplifier_data : Option (List (List ℚ))
  stim_data : Option (List (List ℚ))
  compliance_limit_data : Option (List (List Bool))
  charge_recovery_data : Option (List (List Bool))
  amp_settle_data : Option (List (List Bool))
  board_adc_data : Option (List (List ℚ))
  board_dac_data : Option (List (List ℚ))
  board_dig_in_data : Option (List (List Bool))
  board_dig_out_data : Option (List (List Bool))

/-- Error outcomes of `load_rhs_file`: the `PyFileNotFoundError` and
`PyIOError` raised explicitly, plus a Rust panic (the `unwrap` of
`rhs_file.data`) surfacing as an abnormal exit. -/
inductive PyErr where
  | fileNotFound (msg : String)
  | ioError (msg : String)
  | panicked (msg : String)
deriving Repr, DecidableEq

/-- Rust `load_rhs_file`.  The filesystem check `Path::new(filename).exists()` and
the external decoder call `load(filename)` are outside this repository, so
their outcomes are parameters: `fileExists` is the existence check's result
and `loadResult` is what `load(filename)` returns when called. -/
def load_rhs_file (fileExists : Bool) (filename : String)
    (loadResult : Except String RhsFile) : Except PyErr RHSResult :=
  if !fileExists then
    .error (.fileNotFound ("File not found: " ++ filename))
  else
    match loadResult with
    | .error e => .error (.ioError ("Error loading RHS file: " ++ e))
    | .ok rhs_file =>
        let header := rhs_file.header
        let data_present := rhs_file.data_present
        let result : RHSResult :=
          { data_present := data_present
            t := []
            amplifier_data := none
            dc_amplifier_data := none
            stim_data := none
            compliance_limit_data := none
            charge_recovery_data := none
            amp_settle_data := none
            board_adc_data := none
            board_dac_data := none
            board_dig_in_data := none
            board_dig_out_data := none }
        if data_present then
          match rhs_file.data with
          | none => .error (.panicked ("called Option::unwrap on a None value"))
          | some data =>
              let stim_conversion := convert_stim_data data
              .ok { result with
                t := data.timestamps.map fun ts =>
                  ((ts : ℤ) : ℚ) / header.sample_rate
                amplifier_data := some (convert_amplifier_data data)
                dc_amplifier_data :=
                  if header.dc_amplifier_data_saved then
                    some (convert_dc_amplifier_data data)
                  else none
                stim_data := some stim_conversion.stim_data
                compliance_limit_data :=
                  some stim_conversion.compliance_limit_data
                charge_recovery_data :=
                  some stim_conversion.charge_recovery_data
                amp_settle_data := some stim_conversion.amp_settle_data
                board_adc_data := some (convert_board_adc_data data)
                board_dac_data := some (convert_board_dac_data data)
                board_dig_in_data := some (convert_board_dig_in_raw data header)
                board_dig_out_data :=
                  some (convert_board_dig_out_raw data header) }
        else
          .ok result

/-- Filename used by the concrete witness inputs below. -/
def recFilename : String := "rec.rhs"

/-- Concrete raw block: only a zero-channel board-ADC array present. -/
def dW4 : RhsData :=
  ⟨[], none, none, none, some ⟨0, 5, fun _ _ => 0⟩, none, none, none⟩

/-- Concrete decoded file for the C4 witness: DC flag unset, data present. -/
def fW4 : RhsFile := ⟨⟨30000, false, [], []⟩, true, some dW4⟩

/-- Concrete raw block with a DC-amplifier raw array present. -/
def dW6 : RhsData :=
  ⟨[], none, some ⟨1, 1, fun _ _ => 0⟩, none, none, none, none, none⟩

/-- Concrete decoded file for the C6 witness: DC flag unset yet DC raw data
present. -/
def fW6 : RhsFile := ⟨⟨30000, false, [], []⟩, true, some dW6⟩

/-- The result record `load_rhs_file` produces for `fW6`. -/
def rW6 : RHSResult :=
  ⟨true, [], some [], none, some [], some [], some [], some [], some [],
   some [], some [], some []⟩

/-- Concrete raw block with timestamps [0, 1]. -/
def dW7 : RhsData := ⟨[0, 1], none, none, none, none, none, none, none⟩

/-- Concrete decoded file for the C7 witness: sample rate 30000 Hz. -/
def fW7 : RhsFile := ⟨⟨30000, false, [], []⟩, true, some dW7⟩

/-- The result record `load_rhs_file` produces for `fW7`. -/
def rW7 : RHSResult :=
  ⟨true, [((0 : ℤ) : ℚ) / 30000, ((1 : ℤ) : ℚ) / 30000], some [], none,
   some [], some [], some [], some [], some [], some [], some [], some []⟩

/-- Concrete raw block with every raw array absent. -/
def dW10 : RhsData := ⟨[], none, none, none, none, none, none, none⟩

/-- Concrete decoded file for the C10 witness. -/
def fW10 : RhsFile := ⟨⟨30000, true, [⟨0⟩], []⟩, true, some dW10⟩


/-- Entry `i` of `(List.range n).map f` read through `getD`. -/
theorem getD_range_map {α : Type} (f : Nat → α) {n i : Nat} (h : i < n) (d : α) :
    ((List.range n).map f).getD i d = f i := by
  rw [List.getD_eq_getElem?_getD, List.getElem?_map, List.getElem?_range h]
  rfl

/-- Entry `i` of `l.map f` read through `getD`, for `i` in bounds. -/
theorem getD_map {α β : Type} (f : α → β) {l : List α} {i : Nat} (h : i < l.length)
    (d : β) (d' : α) :
    (l.map f).getD i d = f (l.getD i d') := by
  rw [List.getD_eq_getElem?_getD, List.getElem?_map, List.getElem?_eq_getElem h,
    List.getD_eq_getElem?_getD, List.getElem?_eq_getElem h]
  rfl

/-- The mask test the digital converters compute is exactly `Nat.testBit`. -/
theorem and_shift_ne_zero_eq_testBit (w n : Nat) :
    ((w &&& (1 <<< n)) != 0) = w.testBit n := by
  rw [Nat.shiftLeft_eq, one_mul, Nat.and_two_pow]
  cases h : w.testBit n <;> simp [h]

/-- Mask test `(sample &&& 2 ^ k) != 0` as `testBit` for the stim flag masks. -/
theorem and_pow_ne_zero_eq_testBit (w k : Nat) :
    ((w &&& 2 ^ k) != 0) = w.testBit k := by
  rw [Nat.and_two_pow]
  cases h : w.testBit k <;> simp [h]

/-- Entries of `convert_board_dig_in_raw` for in-bounds indices. -/
theorem convert_board_dig_in_raw_entry (data : RhsData) (header : RhsHeader)
    (ws : List Nat) (hws : data.board_dig_in_raw = some ws)
    {i j : Nat} (hi : i < header.board_dig_in_channels.length) (hj : j < ws.length) :
    ((convert_board_dig_in_raw data header).getD i []).getD j false
      = (ws.getD j 0).testBit ((header.board_dig_in_channels.getD i ⟨0⟩).native_order) := by
  have hch : ¬ header.board_dig_in_channels.length = 0 := by omega
  have hs : ¬ ws.length = 0 := by omega
  rw [convert_board_dig_in_raw]
  simp only [hws, hch, if_false, hs]
  rw [getD_map _ hi [] ⟨0⟩, getD_map _ hj false 0, and_shift_ne_zero_eq_testBit]

/-- Shape of `convert_board_dig_in_raw` in the non-degenerate case. -/
theorem convert_board_dig_in_raw_shape (data : RhsData) (header : RhsHeader)
    (ws : List Nat) (hws : data.board_dig_in_raw = some ws)
    (hch : header.board_dig_in_channels ≠ []) (hs : ws ≠ []) :
    (convert_board_dig_in_raw data header).length
        = header.board_dig_in_channels.length
    ∧ ∀ i, i < header.board_dig_in_channels.length →
        ((convert_board_dig_in_raw data header).getD i []).length = ws.length := by
  have hch' : ¬ header.board_dig_in_channels.length = 0 := by
    simpa [List.length_eq_zero] using hch
  have hs' : ¬ ws.length = 0 := by simpa [List.length_eq_zero] using hs
  rw [convert_board_dig_in_raw]
  simp only [hws, hch', if_false, hs']
  constructor
  · simp
  · intro i hi
    rw [getD_map _ hi [] ⟨0⟩]
    simp

/-- Entries of `convert_board_dig_out_raw` for in-bounds indices. -/
theorem convert_board_dig_out_raw_entry (data : RhsData) (header : RhsHeader)
    (ws : List Nat) (hws : data.board_dig_out_raw = some ws)
    {i j : Nat} (hi : i < header.board_dig_out_channels.length) (hj : j < ws.length) :
    ((convert_board_dig_out_raw data header).getD i []).getD j false
      = (ws.getD j 0).testBit ((header.board_dig_out_channels.getD i ⟨0⟩).native_order) := by
  have hch : ¬ header.board_dig_out_channels.length = 0 := by omega
  have hs : ¬ ws.length = 0 := by omega
  rw [convert_board_dig_out_raw]
  simp only [hws, hch, if_false, hs]
  rw [getD_map _ hi [] ⟨0⟩, getD_map _ hj false 0, and_shift_ne_zero_eq_testBit]

/-- Shape of `convert_board_dig_out_raw` in the non-degenerate case. -/
theorem convert_board_dig_out_raw_shape (data : RhsData) (header : RhsHeader)
    (ws : List Nat) (hws : data.board_dig_out_raw = some ws)
    (hch : header.board_dig_out_channels ≠ []) (hs : ws ≠ []) :
    (convert_board_dig_out_raw data header).length
        = header.board_dig_out_channels.length
    ∧ ∀ i, i < header.board_dig_out_channels.length →
        ((convert_board_dig_out_raw data header).getD i []).length = ws.length := by
  have hch' : ¬ header.board_dig_out_channels.length = 0 := by
    simpa [List.length_eq_zero] using hch
  have hs' : ¬ ws.length = 0 := by simpa [List.length_eq_zero] using hs
  rw [convert_board_dig_out_raw]
  simp only [hws, hch', if_false, hs']
  constructor
  · simp
  · intro i hi
    rw [getD_map _ hi [] ⟨0⟩]
    simp

/-- C3 (amended): digital unpack correctness. -/
theorem dig_unpack_bit_extraction (data : RhsData) (header : RhsHeader) (ws : List Nat) :
    (data.board_dig_in_raw = some ws →
      header.board_dig_in_channels ≠ [] → ws ≠ [] →
      (convert_board_dig_in_raw data header).length
          = header.board_dig_in_channels.length
      ∧ (∀ i, i < header.board_dig_in_channels.length →
          ((convert_board_dig_in_raw data header).getD i []).length = ws.length)
      ∧ ∀ i j, i < header.board_dig_in_channels.length → j < ws.length →
          ((convert_board_dig_in_raw data header).getD i []).getD j false
            = (ws.getD j 0).testBit
                ((header.board_dig_in_channels.getD i ⟨0⟩).native_order))
    ∧ (data.board_dig_out_raw = some ws →
      header.board_dig_out_channels ≠ [] → ws ≠ [] →
      (convert_board_dig_out_raw data header).length
          = header.board_dig_out_channels.length
      ∧ (∀ i, i < header.board_dig_out_channels.length →
          ((convert_board_dig_out_raw data header).getD i []).length = ws.length)
      ∧ ∀ i j, i < header.board_dig_out_channels.length → j < ws.length →
          ((convert_board_dig_out_raw data header).getD i []).getD j false
            = (ws.getD j 0).testBit
                ((header.board_dig_out_channels.getD i ⟨0⟩).native_order)) := by
  constructor
  · intro hws hch hs
    obtain ⟨h1, h2⟩ := convert_board_dig_in_raw_shape data header ws hws hch hs
    exact ⟨h1, h2, fun i j hi hj =>
      convert_board_dig_in_raw_entry data header ws hws hi hj⟩
  · intro hws hch hs
    obtain ⟨h1, h2⟩ := convert_board_dig_out_raw_shape data header ws hws hch hs
    exact ⟨h1, h2, fun i j hi hj =>
      convert_board_dig_out_raw_entry data header ws hws hi hj⟩

/-- C3 witness: channel with native_order 3 is true exactly at word 8. -/
theorem dig_unpack_bit_extraction_witness :
    ((convert_board_dig_in_raw
        ⟨[], none, none, none, none, none, some [8, 0], none⟩
        ⟨30000, false, [⟨3⟩, ⟨0⟩], []⟩).getD 0 []).getD 0 false
      = (8 : Nat).testBit 3 :=
  ((dig_unpack_bit_extraction
      ⟨[], none, none, none, none, none, some [8, 0], none⟩
      ⟨30000, false, [⟨3⟩, ⟨0⟩], []⟩ [8, 0]).1 rfl (by decide) (by decide)).2.2
    0 0 (by decide) (by decide)

/-- C3 counterexample: one digital-in channel, zero samples: the unpack
returns `[]`, not a one-per-channel list of empty sequences. -/
theorem dig_in_zero_samples_shape_cex :
    (⟨30000, false, [⟨0⟩], []⟩ : RhsHeader).board_dig_in_channels.length = 1
    ∧ (⟨[], none, none, none, none, none, some [], none⟩ :
        RhsData).board_dig_in_raw = some []
    ∧ convert_board_dig_in_raw
        ⟨[], none, none, none, none, none, some [], none⟩
        ⟨30000, false, [⟨0⟩], []⟩ = []
    ∧ (convert_board_dig_in_raw
        ⟨[], none, none, none, none, none, some [], none⟩
        ⟨30000, false, [⟨0⟩], []⟩).length ≠ 1 := by
  refine ⟨rfl, rfl, rfl, ?_⟩
  decide

/-- C9: with native_order in [0,15] the mask fits in 16 bits and the
converters compute the ideal bit extraction. -/
theorem dig_shift_no_overflow (header : RhsHeader) (data : RhsData)
    (hin : ∀ ch ∈ header.board_dig_in_channels, ch.native_order ≤ 15)
    (hout : ∀ ch ∈ header.board_dig_out_channels, ch.native_order ≤ 15) :
    (∀ ch ∈ header.board_dig_in_channels,
        1 <<< ch.native_order < 65536
        ∧ (1 <<< ch.native_order) % 65536 = 1 <<< ch.native_order)
    ∧ (∀ ch ∈ header.board_dig_out_channels,
        1 <<< ch.native_order < 65536
        ∧ (1 <<< ch.native_order) % 65536 = 1 <<< ch.native_order)
    ∧ (∀ ws, data.board_dig_in_raw = some ws →
        ∀ i j, i < header.board_dig_in_channels.length → j < ws.length →
          ((convert_board_dig_in_raw data header).getD i []).getD j false
            = (ws.getD j 0).testBit
                ((header.board_dig_in_channels.getD i ⟨0⟩).native_order))
    ∧ (∀ ws, data.board_dig_out_raw = some ws →
        ∀ i j, i < header.board_dig_out_channels.length → j < ws.length →
          ((convert_board_dig_out_raw data header).getD i []).getD j false
            = (ws.getD j 0).testBit
                ((header.board_dig_out_channels.getD i ⟨0⟩).native_order)) := by
  have key : ∀ n : Nat, n ≤ 15 →
      1 <<< n < 65536 ∧ (1 <<< n) % 65536 = 1 <<< n := by
    intro n hn
    have h1 : 1 <<< n < 65536 := by
      rw [Nat.shiftLeft_eq, one_mul]
      calc 2 ^ n ≤ 2 ^ 15 := Nat.pow_le_pow_right (by norm_num) hn
        _ < 65536 := by norm_num
    exact ⟨h1, Nat.mod_eq_of_lt h1⟩
  refine ⟨fun ch hch => key _ (hin ch hch), fun ch hch => key _ (hout ch hch),
    ?_, ?_⟩
  · intro ws hws i j hi hj
    exact convert_board_dig_in_raw_entry data header ws hws hi hj
  · intro ws hws i j hi hj
    exact convert_board_dig_out_raw_entry data header ws hws hi hj

/-- C9 witness at a concrete header and data block. -/
theorem dig_shift_no_overflow_witness :
    (1 <<< (15 : Nat) < 65536
     ∧ (1 <<< (15 : Nat)) % 65536 = 1 <<< (15 : Nat))
    ∧ ((convert_board_dig_in_raw
          ⟨[], none, none, none, none, none, some [32768], some [2]⟩
          ⟨30000, false, [⟨15⟩], [⟨1⟩]⟩).getD 0 []).getD 0 false
        = (32768 : Nat).testBit 15 :=
  ⟨(dig_shift_no_overflow ⟨30000, false, [⟨15⟩], [⟨1⟩]⟩
      ⟨[], none, none, none, none, none, some [32768], some [2]⟩
      (by decide) (by decide)).1 ⟨15⟩ (by decide),
   (dig_shift_no_overflow ⟨30000, false, [⟨15⟩], [⟨1⟩]⟩
      ⟨[], none, none, none, none, none, some [32768], some [2]⟩
      (by decide) (by decide)).2.2.1 [32768] rfl 0 0 (by decide) (by decide)⟩

/-- C1: amplifier conversion is `0.195 * (c - 32768)`, zero at 32768. -/
theorem amplifier_conversion_formula :
    (∀ c : Nat, c ≤ 65535 →
      amplifier_sample_scale c = 0.195 * ((c : ℚ) - 32768))
    ∧ amplifier_sample_scale 32768 = 0
    ∧ ∀ (data : RhsData) (arr : Array2), data.amplifier_data = some arr →
        ∀ i j, i < arr.num_channels → j < arr.num_samples →
          ((convert_amplifier_data data).getD i []).getD j 0
            = amplifier_sample_scale (arr.entry i j) := by
  refine ⟨?_, ?_, ?_⟩
  · intro c _
    rw [amplifier_sample_scale]
    push_cast
    ring
  · norm_num [amplifier_sample_scale]
  · intro data arr harr i j hi hj
    rw [convert_amplifier_data]
    simp only [harr]
    rw [getD_range_map _ hi, getD_range_map _ hj]

/-- C1 witness: code 32963 maps to 38.025 microvolts. -/
theorem amplifier_conversion_formula_witness :
    amplifier_sample_scale 32963 = 0.195 * ((32963 : ℚ) - 32768)
    ∧ ((convert_amplifier_data
          ⟨[], some ⟨1, 1, fun _ _ => 32963⟩, none, none, none, none, none,
           none⟩).getD 0 []).getD 0 0
        = amplifier_sample_scale 32963
    ∧ 0.195 * ((32963 : ℚ) - 32768) = 38.025 :=
  ⟨amplifier_conversion_formula.1 32963 (by decide),
   amplifier_conversion_formula.2.2
     ⟨[], some ⟨1, 1, fun _ _ => 32963⟩, none, none, none, none, none, none⟩
     ⟨1, 1, fun _ _ => 32963⟩ rfl 0 0 (by decide) (by decide),
   by norm_num⟩

/-- The compliance-limit mask test is bit 15. -/
theorem stim_compliance_limit_eq (w : Nat) :
    stim_compliance_limit w = w.testBit 15 := by
  rw [stim_compliance_limit, show (0x8000 : Nat) = 2 ^ 15 by norm_num,
    and_pow_ne_zero_eq_testBit]

/-- The charge-recovery mask test is bit 14. -/
theorem stim_charge_recovery_eq (w : Nat) :
    stim_charge_recovery w = w.testBit 14 := by
  rw [stim_charge_recovery, show (0x4000 : Nat) = 2 ^ 14 by norm_num,
    and_pow_ne_zero_eq_testBit]

/-- The amp-settle mask test is bit 13. -/
theorem stim_amp_settle_eq (w : Nat) :
    stim_amp_settle w = w.testBit 13 := by
  rw [stim_amp_settle, show (0x2000 : Nat) = 2 ^ 13 by norm_num,
    and_pow_ne_zero_eq_testBit]

/-- The signed current is the low byte with the sign of bit 8. -/
theorem stim_current_eq (w : Nat) :
    stim_current w
      = (if w.testBit 8 then (-1 : ℚ) else 1) * ((w &&& 0xFF : Nat) : ℚ) := by
  rw [stim_current]
  have h8 : ((w &&& 0x0100) != 0) = w.testBit 8 := by
    rw [show (0x0100 : Nat) = 2 ^ 8 by norm_num, and_pow_ne_zero_eq_testBit]
  rw [h8]
  cases h : w.testBit 8 <;> simp [h]

/-- C2: stimulation word decode. -/
theorem stim_word_decode :
    (∀ w : Nat, w ≤ 65535 →
      stim_compliance_limit w = w.testBit 15
      ∧ stim_charge_recovery w = w.testBit 14
      ∧ stim_amp_settle w = w.testBit 13
      ∧ stim_current w
          = (if w.testBit 8 then (-1 : ℚ) else 1) * ((w &&& 0xFF : Nat) : ℚ))
    ∧ (stim_compliance_limit 0x8000 = true ∧ stim_charge_recovery 0x8000 = false
       ∧ stim_amp_settle 0x8000 = false ∧ stim_current 0x8000 = 0)
    ∧ stim_current 0x0105 = -5
    ∧ stim_current 0x0005 = 5
    ∧ (∀ w w' : Nat, w &&& 0x1FF = w' &&& 0x1FF →
        stim_current w = stim_current w')
    ∧ (∀ w w' : Nat, w >>> 13 = w' >>> 13 →
        stim_compliance_limit w = stim_compliance_limit w'
        ∧ stim_charge_recovery w = stim_charge_recovery w'
        ∧ stim_amp_settle w = stim_amp_settle w')
    ∧ (∀ (data : RhsData) (arr : Array2), data.stim_data = some arr →
        ∀ i j, i < arr.num_channels → j < arr.num_samples →
          ((convert_stim_data data).stim_data.getD i []).getD j 0
              = stim_current (arr.entry i j)
          ∧ ((convert_stim_data data).compliance_limit_data.getD i []).getD
                j false
              = stim_compliance_limit (arr.entry i j)
          ∧ ((convert_stim_data data).charge_recovery_data.getD i []).getD
                j false
              = stim_charge_recovery (arr.entry i j)
          ∧ ((convert_stim_data data).amp_settle_data.getD i []).getD j false
              = stim_amp_settle (arr.entry i j)) := by
  refine ⟨?_, by decide, by decide, by decide, ?_, ?_, ?_⟩
  · intro w _
    exact ⟨stim_compliance_limit_eq w, stim_charge_recovery_eq w,
      stim_amp_settle_eq w, stim_current_eq w⟩
  · intro w w' hww
    have hand : ∀ (m k : Nat), 0x1FF &&& k = k →
        m &&& 0x1FF &&& k = m &&& k := by
      intro m k hk
      rw [Nat.and_assoc, hk]
    have e100 : w &&& 0x100 = w' &&& 0x100 := by
      rw [← hand w 0x100 (by decide), ← hand w' 0x100 (by decide), hww]
    have eFF : w &&& 0xFF = w' &&& 0xFF := by
      rw [← hand w 0xFF (by decide), ← hand w' 0xFF (by decide), hww]
    rw [stim_current, stim_current, e100, eFF]
  · intro w w' hsh
    have t : ∀ k, w.testBit (13 + k) = w'.testBit (13 + k) := by
      intro k
      rw [← Nat.testBit_shiftRight, ← Nat.testBit_shiftRight, hsh]
    refine ⟨?_, ?_, ?_⟩
    · rw [stim_compliance_limit_eq, stim_compliance_limit_eq,
        show 15 = 13 + 2 by norm_num, t 2]
    · rw [stim_charge_recovery_eq, stim_charge_recovery_eq,
        show 14 = 13 + 1 by norm_num, t 1]
    · rw [stim_amp_settle_eq, stim_amp_settle_eq,
        show 13 = 13 + 0 by norm_num, t 0]
  · intro data arr harr i j hi hj
    rw [convert_stim_data]
    simp only [harr]
    refine ⟨?_, ?_, ?_, ?_⟩ <;>
      rw [getD_range_map _ hi, getD_range_map _ hj]

/-- C2 witness at words 0x0105 and 0x8000. -/
theorem stim_word_decode_witness :
    stim_current 0x0105
        = (if (0x0105 : Nat).testBit 8 then (-1 : ℚ) else 1)
            * (((0x0105 : Nat) &&& 0xFF : Nat) : ℚ)
    ∧ ((convert_stim_data
          ⟨[], none, none, some ⟨1, 1, fun _ _ => 0x8000⟩, none, none, none,
           none⟩).compliance_limit_data.getD 0 []).getD 0 false
        = stim_compliance_limit 0x8000 :=
  ⟨(stim_word_decode.1 0x0105 (by decide)).2.2.2,
   (stim_word_decode.2.2.2.2.2.2
      ⟨[], none, none, some ⟨1, 1, fun _ _ => 0x8000⟩, none, none, none, none⟩
      ⟨1, 1, fun _ _ => 0x8000⟩ rfl 0 0 (by decide) (by decide)).2.1⟩

/-- A map of constant `[]` over a range is a replicate of `[]`. -/
theorem range_map_nil {α : Type} (n : Nat) :
    (List.range n).map (fun _ => ([] : List α)) = List.replicate n [] := by
  rw [List.map_const', List.length_range]

/-- C5 (amended): zero-sample and zero-channel edge cases of every
converter. -/
theorem zero_sample_edge_cases :
    (∀ (data : RhsData) (arr : Array2), data.amplifier_data = some arr →
        arr.num_samples = 0 →
        convert_amplifier_data data = List.replicate arr.num_channels [])
    ∧ (∀ (data : RhsData) (arr : Array2), data.dc_amplifier_data = some arr →
        arr.num_samples = 0 →
        convert_dc_amplifier_data data = List.replicate arr.num_channels [])
    ∧ (∀ (data : RhsData) (arr : Array2), data.stim_data = some arr →
        arr.num_samples = 0 →
        (convert_stim_data data).stim_data
            = List.replicate arr.num_channels []
        ∧ (convert_stim_data data).compliance_limit_data
            = List.replicate arr.num_channels []
        ∧ (convert_stim_data data).charge_recovery_data
            = List.replicate arr.num_channels []
        ∧ (convert_stim_data data).amp_settle_data
            = List.replicate arr.num_channels [])
    ∧ (∀ (data : RhsData) (arr : Array2), data.board_adc_data = some arr →
        arr.num_samples = 0 → arr.num_channels ≠ 0 →
        convert_board_adc_data data = List.replicate arr.num_channels [])
    ∧ (∀ (data : RhsData) (arr : Array2), data.board_dac_data = some arr →
        arr.num_samples = 0 → arr.num_channels ≠ 0 →
        convert_board_dac_data data = List.replicate arr.num_channels [])
    ∧ (∀ (data : RhsData) (header : RhsHeader),
        data.board_dig_in_raw = some [] →
        convert_board_dig_in_raw data header = [])
    ∧ (∀ (data : RhsData) (header : RhsHeader),
        data.board_dig_out_raw = some [] →
        convert_board_dig_out_raw data header = [])
    ∧ (∀ (data : RhsData) (arr : Array2), data.amplifier_data = some arr →
        arr.num_channels = 0 → convert_amplifier_data data = [])
    ∧ (∀ (data : RhsData) (arr : Array2), data.board_adc_data = some arr →
        arr.num_channels = 0 → convert_board_adc_data data = [])
    ∧ (∀ (data : RhsData) (header : RhsHeader),
        header.board_dig_in_channels = [] →
        convert_board_dig_in_raw data header = [])
    ∧ (∀ (data : RhsData) (header : RhsHeader),
        header.board_dig_out_channels = [] →
        convert_board_dig_out_raw data header = []) := by
  refine ⟨?_, ?_, ?_, ?_, ?_, ?_, ?_, ?_, ?_, ?_, ?_⟩
  · intro data arr harr hs
    rw [convert_amplifier_data]
    simp only [harr, hs, List.range_zero, List.map_nil, range_map_nil]
  · intro data arr harr hs
    rw [convert_dc_amplifier_data]
    simp only [harr, hs, List.range_zero, List.map_nil, range_map_nil]
  · intro data arr harr hs
    rw [convert_stim_data]
    simp only [harr, hs, List.range_zero, List.map_nil, range_map_nil]
    exact ⟨trivial, trivial, trivial, trivial⟩
  · intro data arr harr hs hc
    rw [convert_board_adc_data]
    simp only [harr, hs, hc, if_false, List.range_zero, List.map_nil,
      range_map_nil]
  · intro data arr harr hs hc
    rw [convert_board_dac_data]
    simp only [harr, hs, hc, if_false, List.range_zero, List.map_nil,
      range_map_nil]
  · intro data header hws
    rw [convert_board_dig_in_raw]
    simp only [hws, List.length_nil]
    by_cases hch : header.board_dig_in_channels.length = 0 <;> simp [hch]
  · intro data header hws
    rw [convert_board_dig_out_raw]
    simp only [hws, List.length_nil]
    by_cases hch : header.board_dig_out_channels.length = 0 <;> simp [hch]
  · intro data arr harr hc
    rw [convert_amplifier_data]
    simp only [harr, hc, List.range_zero, List.map_nil]
  · intro data arr harr hc
    rw [convert_board_adc_data]
    simp only [harr, hc, if_true]
  · intro data header hch
    rw [convert_board_dig_in_raw]
    simp [hch]
  · intro data header hch
    rw [convert_board_dig_out_raw]
    simp [hch]

/-- C5 witness: concrete zero-sample inputs. -/
theorem zero_sample_edge_cases_witness :
    convert_amplifier_data
        ⟨[], some ⟨2, 0, fun _ _ => 0⟩, none, none, none, none, none, none⟩
      = List.replicate 2 []
    ∧ convert_board_dig_in_raw
        ⟨[], none, none, none, none, none, some [], none⟩
        ⟨30000, false, [⟨0⟩], []⟩ = [] :=
  ⟨zero_sample_edge_cases.1
      ⟨[], some ⟨2, 0, fun _ _ => 0⟩, none, none, none, none, none, none⟩
      ⟨2, 0, fun _ _ => 0⟩ rfl rfl,
   zero_sample_edge_cases.2.2.2.2.2.1
      ⟨[], none, none, none, none, none, some [], none⟩
      ⟨30000, false, [⟨0⟩], []⟩ rfl⟩

/-- C5 counterexample: two digital-out channels and a zero-sample raw word
sequence give `[]`, not one empty sequence per channel. -/
theorem dig_out_zero_samples_cex :
    (⟨30000, false, [], [⟨1⟩, ⟨0⟩]⟩ :
        RhsHeader).board_dig_out_channels.length = 2
    ∧ (⟨[], none, none, none, none, none, none, some []⟩ :
        RhsData).board_dig_out_raw = some []
    ∧ convert_board_dig_out_raw
        ⟨[], none, none, none, none, none, none, some []⟩
        ⟨30000, false, [], [⟨1⟩, ⟨0⟩]⟩
      ≠ List.replicate 2 ([] : List Bool) := by
  refine ⟨rfl, rfl, ?_⟩
  decide

/-- Characterization of a successful load with data present. -/
theorem load_rhs_file_ok (filename : String) (f : RhsFile) (d : RhsData)
    (hd : f.data = some d) (hp : f.data_present = true) :
    load_rhs_file true filename (.ok f)
      = .ok { data_present := true
              t := d.timestamps.map fun ts : ℤ => (ts : ℚ) / f.header.sample_rate
              amplifier_data := some (convert_amplifier_data d)
              dc_amplifier_data :=
                if f.header.dc_amplifier_data_saved then
                  some (convert_dc_amplifier_data d)
                else none
              stim_data := some (convert_stim_data d).stim_data
              compliance_limit_data :=
                some (convert_stim_data d).compliance_limit_data
              charge_recovery_data :=
                some (convert_stim_data d).charge_recovery_data
              amp_settle_data := some (convert_stim_data d).amp_settle_data
              board_adc_data := some (convert_board_adc_data d)
              board_dac_data := some (convert_board_dac_data d)
              board_dig_in_data := some (convert_board_dig_in_raw d f.header)
              board_dig_out_data :=
                some (convert_board_dig_out_raw d f.header) } := by
  rw [load_rhs_file]
  simp only [hp, hd, Bool.not_true, Bool.false_eq_true, if_false, if_true]

/-- Rust `convert_board_adc_data` on a zero-channel array is empty. -/
theorem convert_board_adc_data_zero_channels (data : RhsData) (arr : Array2)
    (harr : data.board_adc_data = some arr) (hc : arr.num_channels = 0) :
    convert_board_adc_data data = [] := by
  rw [convert_board_adc_data]
  simp only [harr, hc, if_true]

/-- C4: prerequisite-flag-gated datatypes are absent when the flag is unset,
and a zero-channel datatype is the empty sequence the spec calls for. -/
theorem absent_datatypes_no_value (filename : String) (f : RhsFile)
    (d : RhsData) (arr : Array2) (hd : f.data = some d)
    (hp : f.data_present = true)
    (hdc : f.header.dc_amplifier_data_saved = false)
    (hadc : d.board_adc_data = some arr) (hz : arr.num_channels = 0) :
    ∃ r, load_rhs_file true filename (.ok f) = .ok r
      ∧ r.dc_amplifier_data = none
      ∧ r.board_adc_data = some [] := by
  refine ⟨_, load_rhs_file_ok filename f d hd hp, ?_, ?_⟩
  · simp only [hdc, Bool.false_eq_true, if_false]
  · simp only [convert_board_adc_data_zero_channels d arr hadc hz]

/-- C6: dc_amplifier_data_saved = false means no DC-amplifier entry. -/
theorem dc_flag_unset_omitted (filename : String) (f : RhsFile)
    (r : RHSResult) (hdc : f.header.dc_amplifier_data_saved = false)
    (hload : load_rhs_file true filename (.ok f) = .ok r) :
    r.dc_amplifier_data = none := by
  by_cases hp : f.data_present = true
  · cases hd : f.data with
    | none =>
        rw [load_rhs_file] at hload
        simp [hp, hd] at hload
    | some d =>
        rw [load_rhs_file_ok filename f d hd hp] at hload
        injection hload with h
        subst h
        simp only [hdc, Bool.false_eq_true, if_false]
  · have hp' : f.data_present = false := by simpa using hp
    rw [load_rhs_file] at hload
    simp only [hp', Bool.not_true, Bool.false_eq_true, if_false,
      Bool.not_false, if_true] at hload
    injection hload with h
    subst h
    rfl

/-- C7: the time sequence is timestamp / sample_rate, one entry each. -/
theorem time_vector_formula (filename : String) (f : RhsFile) (d : RhsData)
    (r : RHSResult) (hd : f.data = some d) (hp : f.data_present = true)
    (hload : load_rhs_file true filename (.ok f) = .ok r) :
    r.t.length = d.timestamps.length
    ∧ ∀ j : Nat, r.t[j]?
        = (d.timestamps[j]?).map fun ts : ℤ => (ts : ℚ) / f.header.sample_rate := by
  rw [load_rhs_file_ok filename f d hd hp] at hload
  injection hload with h
  subst h
  refine ⟨by simp, fun j => by simp⟩

/-- C8: a missing file is a not-found error carrying the path verbatim,
independent of the decoder's result. -/
theorem missing_file_not_found :
    ∀ (filename : String) (loadResult : Except String RhsFile),
      load_rhs_file false filename loadResult
        = .error (.fileNotFound ("File not found: " ++ filename))
      ∧ (∃ pre, "File not found: " ++ filename = pre ++ filename)
      ∧ ∀ loadResult' : Except String RhsFile,
          load_rhs_file false filename loadResult
            = load_rhs_file false filename loadResult' := by
  intro filename loadResult
  exact ⟨rfl, ⟨"File not found: ", rfl⟩, fun _ => rfl⟩

/-- C10: absent raw arrays yield empty converter results and a successful
load. -/
theorem absent_raw_arrays_empty_result (filename : String) (f : RhsFile)
    (d : RhsData) (hd : f.data = some d) (hp : f.data_present = true)
    (ha : d.amplifier_data = none) (hdca : d.dc_amplifier_data = none)
    (hst : d.stim_data = none) (hadc : d.board_adc_data = none)
    (hdac : d.board_dac_data = none) (hdi : d.board_dig_in_raw = none)
    (hdo : d.board_dig_out_raw = none) :
    convert_amplifier_data d = []
    ∧ convert_dc_amplifier_data d = []
    ∧ (convert_stim_data d).stim_data = []
    ∧ (convert_stim_data d).compliance_limit_data = []
    ∧ (convert_stim_data d).charge_recovery_data = []
    ∧ (convert_stim_data d).amp_settle_data = []
    ∧ convert_board_adc_data d = []
    ∧ convert_board_dac_data d = []
    ∧ (∀ header, convert_board_dig_in_raw d header = [])
    ∧ (∀ header, convert_board_dig_out_raw d header = [])
    ∧ ∃ r, load_rhs_file true filename (.ok f) = .ok r := by
  refine ⟨?_, ?_, ?_, ?_, ?_, ?_, ?_, ?_, ?_, ?_,
    _, load_rhs_file_ok filename f d hd hp⟩
  · rw [convert_amplifier_data]; simp only [ha]
  · rw [convert_dc_amplifier_data]; simp only [hdca]
  · rw [convert_stim_data]; simp only [hst]
  · rw [convert_stim_data]; simp only [hst]
  · rw [convert_stim_data]; simp only [hst]
  · rw [convert_stim_data]; simp only [hst]
  · rw [convert_board_adc_data]; simp only [hadc]
  · rw [convert_board_dac_data]; simp only [hdac]
  · intro header
    rw [convert_board_dig_in_raw]
    simp only [hdi]
    by_cases hch : header.board_dig_in_channels.length = 0 <;> simp [hch]
  · intro header
    rw [convert_board_dig_out_raw]
    simp only [hdo]
    by_cases hch : header.board_dig_out_channels.length = 0 <;> simp [hch]

/-- C4 witness. -/
theorem absent_datatypes_no_value_witness :
    ∃ r, load_rhs_file true recFilename (.ok fW4) = .ok r
      ∧ r.dc_amplifier_data = none
      ∧ r.board_adc_data = some [] :=
  absent_datatypes_no_value recFilename fW4 dW4 ⟨0, 5, fun _ _ => 0⟩
    rfl rfl rfl rfl rfl

/-- C6 witness. -/
theorem dc_flag_unset_omitted_witness : rW6.dc_amplifier_data = none :=
  dc_flag_unset_omitted recFilename fW6 rW6 rfl rfl

/-- C7 witness: with sample_rate 30000 and timestamps [0, 1] the time
sequence is [0, 1/30000]. -/
theorem time_vector_formula_witness :
    (rW7.t.length = dW7.timestamps.length
     ∧ ∀ j : Nat, rW7.t[j]?
        = (dW7.timestamps[j]?).map fun ts : ℤ =>
            (ts : ℚ) / fW7.header.sample_rate)
    ∧ rW7.t = [0, 1 / 30000] :=
  ⟨time_vector_formula recFilename fW7 dW7 rW7 rfl rfl rfl,
   by norm_num [rW7]⟩

/-- C10 witness. -/
theorem absent_raw_arrays_empty_result_witness :
    convert_amplifier_data dW10 = []
    ∧ (convert_stim_data dW10).stim_data = []
    ∧ convert_board_dig_in_raw dW10 fW10.header = []
    ∧ ∃ r, load_rhs_file true recFilename (.ok fW10) = .ok r :=
  ⟨(absent_raw_arrays_empty_result recFilename fW10 dW10 rfl rfl rfl rfl rfl
      rfl rfl rfl rfl).1,
   (absent_raw_arrays_empty_result recFilename fW10 dW10 rfl rfl rfl rfl rfl
      rfl rfl rfl rfl).2.2.1,
   (absent_raw_arrays_empty_result recFilename fW10 dW10 rfl rfl rfl rfl rfl
      rfl rfl rfl rfl).2.2.2.2.2.2.2.2.1 fW10.header,
   (absent_raw_arrays_empty_result recFilename fW10 dW10 rfl rfl rfl rfl rfl
      rfl rfl rfl rfl).2.2.2.2.2.2.2.2.2.2⟩
